/-
  Verification of the llama-stack-demos repository against its
  natural-language specification.

  Shallow embedding of the client-side procedures the claims concern:
  the retrieval-context composer (src/shared/utils.py, build_context),
  the model-listing filter (src/shared/utils.py, check_model_is_available
  and get_any_available_model), the document collection stage
  (download_documents and _collect_local_files), the asynchronous
  attachment polling loop (src/01_foundations/05_insert_documents.py,
  _attach_file, byte-identical in src/demos/01_foundations/06_search_vectors.py),
  the chunking configurations carried by every attach call in the
  repository, the retrieval phase of the hybrid-search demo
  (src/demos/03_rag/05_hybrid_search.py), and the math microservice
  endpoint (src/deployment/kubernetes/mcp-servers/math-mcp/server.py,
  calculate).

  Remote-service calls are modelled as explicit inputs (oracles); wall
  clock time advances only in the modelled sleep of the polling loop,
  by the fixed poll interval, and is measured in integral milliseconds.
  Python floats are modelled as rationals.  Python str.strip and
  str.lower are modelled on the underlying character lists.
-/
import Mathlib

namespace LlamaStackDemos

/-! ## String helpers modelling Python primitives -/

/-- Model of Python str.strip (no arguments): drop whitespace characters
from both ends. -/
def pyStrip (s : String) : String :=
  ⟨((s.data.dropWhile Char.isWhitespace).reverse.dropWhile Char.isWhitespace).reverse⟩

/-- Model of Python str.lower, restricted to the ASCII range the demo
operation names use. -/
def pyLower (s : String) : String :=
  ⟨s.data.map Char.toLower⟩

/-- Model of the Python substring test `pattern in s` on character
lists. -/
def listContainsSub (s pat : List Char) : Bool :=
  match s with
  | [] => pat.isEmpty
  | _ :: rest => pat.isPrefixOf s || listContainsSub rest pat

/-- Model of the Python substring test `pattern in s` on strings. -/
def strContainsSub (s pat : String) : Bool :=
  listContainsSub s.data pat.data

/-- Python truthiness of an optional string: None and the empty string
are falsy. -/
def pyTruthy : Option String → Bool
  | none => false
  | some s => s != ""

/-! ## Retrieval composer data model (src/shared/utils.py) -/

/-- One element of a SearchResult content list.  The Python code probes
`getattr(content, "text", None)`; none models an absent or non-string
attribute. -/
structure SearchContent where
  text : Option String
deriving Repr, DecidableEq

/-- One entry of the list returned by a vector-store search:
`result.content`, `result.filename`, `result.score`.  The float score is
modelled as a rational. -/
structure SearchResult where
  content : List SearchContent
  filename : String
  score : ℚ
deriving Repr, DecidableEq

/-- Render a rational with exactly two digits after the decimal point,
rounding half to even: the model of the Python format specifier `.2f`
applied to `result.score`.  Computed on numerator and denominator so the
kernel can evaluate it. -/
def formatScore2 (q : ℚ) : String :=
  let a : ℤ := q.num * 100
  let d : ℤ := (q.den : ℤ)
  let f : ℤ := a.fdiv d
  let r2 : ℤ := 2 * (a - f * d)
  let n : ℤ := if r2 < d then f else if d < r2 then f + 1
    else if f % 2 = 0 then f else f + 1
  let sign := if n < 0 then "-" else ""
  let m := n.natAbs
  let fp := m % 100
  sign ++ toString (m / 100) ++ "." ++
    (if fp < 10 then "0" ++ toString fp else toString fp)

/-- The joined snippet of one search result, from the body of
build_context: the truthy text fragments, each stripped, joined with a
single space, and the join stripped. -/
def resultSnippet (result : SearchResult) : String :=
  pyStrip (String.intercalate " "
    (result.content.filterMap fun content =>
      if pyTruthy content.text then some (pyStrip (content.text.getD "")) else none))

/-- Embedding of build_context (src/shared/utils.py lines 158-169): an
empty input returns the empty string; otherwise one header line plus one
line per entry with a non-empty snippet, joined with newlines. -/
def build_context (search_results : List SearchResult) : String :=
  if search_results.isEmpty then ""
  else
    let context_lines := "Context from uploaded documents:" ::
      search_results.filterMap (fun result =>
        let snippet := resultSnippet result
        if snippet = "" then none
        else some ("- " ++ result.filename ++ " (score=" ++ formatScore2 result.score
          ++ "): " ++ snippet))
    String.intercalate "\n" context_lines

/-! Spec-side rendering of the composer, written from the words of the
specification (section 4.2 steps 2-4, as amended): extract the text
fragments that are present and non-empty, trim each, join with single
spaces and trim the join; skip entries whose joined text is empty; emit
one `- <filename> (score=<two decimals>): <joined text>` line per kept
entry under the constant header; the empty input yields the empty
string. -/

/-- Spec-side joined text of one entry. -/
def specJoinedText (result : SearchResult) : String :=
  pyStrip (String.intercalate " "
    (((result.content.filterMap SearchContent.text).filter (fun s => s != "")).map
      pyStrip))

/-- Spec-side formatted line for one entry, none when the entry is
skipped. -/
def specEntryLine (result : SearchResult) : Option String :=
  let joined := specJoinedText result
  if joined = "" then none
  else some ("- " ++ result.filename ++ " (score=" ++ formatScore2 result.score
    ++ "): " ++ joined)

/-- Spec-side composer. -/
def buildContextSpec : List SearchResult → String
  | [] => ""
  | results =>
    String.intercalate "\n" ("Context from uploaded documents:" ::
      results.foldr (fun r acc =>
        match specEntryLine r with
        | some line => line :: acc
        | none => acc) [])

/-! ## Attachment polling loop
(src/01_foundations/05_insert_documents.py lines 89-125, _attach_file;
the same function appears byte-identically in
src/demos/01_foundations/06_search_vectors.py lines 104-140).

The remote calls are modelled as inputs: `initial` is the response of
the vector_stores.files.create call and `fetch k` the response of the
k-th vector_stores.files.retrieve call.  Wall-clock time is modelled in
integral milliseconds and advances only at time.sleep(0.2), by 200 ms;
the network calls take no modelled time. -/

/-- The object carried by `response.last_error`. -/
structure LastError where
  message : String
deriving Repr, DecidableEq

/-- The subset of a vector-store file response read by _attach_file. -/
structure FileResponse where
  status : String
  last_error : Option LastError
deriving Repr, DecidableEq

/-- The while loop of _attach_file: while the status is in_progress,
sleep one 200 ms interval, break if the elapsed time now exceeds the
timeout, otherwise re-fetch the response.  Returns the final response,
the elapsed milliseconds, the sleep count and the re-fetch count. -/
def pollLoop (fetch : ℕ → FileResponse) (timeoutMs : ℤ)
    (response : FileResponse) (elapsedMs : ℤ) (sleeps refetches : ℕ) :
    FileResponse × ℤ × ℕ × ℕ :=
  if response.status = "in_progress" then
    if timeoutMs < elapsedMs + 200 then
      (response, elapsedMs + 200, sleeps + 1, refetches)
    else
      pollLoop fetch timeoutMs (fetch refetches) (elapsedMs + 200) (sleeps + 1)
        (refetches + 1)
  else (response, elapsedMs, sleeps, refetches)
termination_by (timeoutMs - elapsedMs).toNat
decreasing_by
  rename_i h
  rw [not_lt] at h
  omega

/-- Classification printed by _attach_file when it returns False. -/
inductive AttachReport where
  | timedOut (printed : String)
  | failed (printed : String)
deriving Repr, DecidableEq

/-- The observable outcome of one _attach_file call: the returned
boolean, the number of retrieve calls, the number of sleeps, the
modelled elapsed time and the printed classification (none on
success). -/
structure AttachOutcome where
  success : Bool
  refetches : ℕ
  sleeps : ℕ
  elapsedMs : ℤ
  report : Option AttachReport
deriving Repr, DecidableEq

/-- Embedding of _attach_file after the create call: run the polling
loop, then classify.  A final completed status returns True; otherwise
the outcome is a timeout when the elapsed time exceeds the timeout and
the status is still in_progress, and a failure (with the optional
last_error message appended when truthy) in every other case. -/
def attach_file (initial : FileResponse) (fetch : ℕ → FileResponse)
    (timeoutMs : ℤ) (filename : String) : AttachOutcome :=
  match pollLoop fetch timeoutMs initial 0 0 0 with
  | (response, elapsedMs, sleeps, refetches) =>
    if response.status = "completed" then
      { success := true, refetches := refetches, sleeps := sleeps,
        elapsedMs := elapsedMs, report := none }
    else
      let error_message := response.last_error.map LastError.message
      if timeoutMs < elapsedMs ∧ response.status = "in_progress" then
        { success := false, refetches := refetches, sleeps := sleeps,
          elapsedMs := elapsedMs,
          report := some (.timedOut ("Timed out attaching " ++ filename)) }
      else
        { success := false, refetches := refetches, sleeps := sleeps,
          elapsedMs := elapsedMs,
          report := some (.failed ("Failed to attach " ++ filename ++
            (match error_message with
             | some msg => if msg != "" then ": " ++ msg else ""
             | none => ""))) }

/-! ## Document collection stage
(src/shared/utils.py lines 133-155, download_documents;
src/01_foundations/05_insert_documents.py lines 76-86 _collect_local_files
and lines 184-188 of main).

The network fetch of each URL is modelled as an input: none when
urlopen or read raises, otherwise the UTF-8-decoded text (decoding with
errors ignored cannot raise).  Filesystem path construction and writing
are not modelled; download_documents returns the contents written to the
temporary files, which main then uploads one by one.  A local file is
modelled by its name and content, the empty content modelling a
zero-byte file; the directory listing is none when the directory does
not exist or is not a directory. -/

/-- One URL together with the outcome of fetching it. -/
structure UrlFetch where
  url : String
  fetched : Option String
deriving Repr, DecidableEq

/-- Embedding of download_documents: per URL, skip on a failed download,
strip the decoded text, skip when the stripped text is empty, otherwise
keep the stripped text (written to the local file that is later
uploaded). -/
def download_documents (fetches : List UrlFetch) : List String :=
  fetches.filterMap fun f =>
    match f.fetched with
    | none => none
    | some content =>
      let content_text := pyStrip content
      if content_text = "" then none
      else some content_text

/-- One file found under the local directory. -/
structure LocalFile where
  name : String
  content : String
deriving Repr, DecidableEq

/-- Embedding of _collect_local_files: an empty result when the
directory is missing or contains no files, otherwise every regular file
unchanged.  No content inspection is performed. -/
def collect_local_files (listing : Option (List LocalFile)) : List LocalFile :=
  match listing with
  | none => []
  | some files => if files.isEmpty then [] else files

/-- The document contents submitted to files.create by the
local-directory path of main (lines 184-188): every collected file is
opened and uploaded. -/
def localPathUploads (listing : Option (List LocalFile)) : List String :=
  (collect_local_files listing).map LocalFile.content

/-! ## Claim C7: chunking configurations

Every vector_stores.files.create call in the repository carries a
literal static chunking strategy.  The list below transcribes them in
source order:
src/01_foundations/05_insert_documents.py line 101 (512, 64);
src/demos/01_foundations/04_vector_db_basics.py line 122 (256, 32);
src/demos/01_foundations/06_search_vectors.py line 116 (512, 64);
src/demos/03_rag/01_simple_rag.py line 114 (256, 32);
src/demos/03_rag/02_multi_source_rag.py line 75 (256, 32);
src/demos/03_rag/03_rag_with_metadata.py line 66 (256, 32);
src/demos/03_rag/04_chunking_strategies.py lines 152 and 159 (128, 16)
and (512, 64);
src/demos/03_rag/05_hybrid_search.py line 65 (256, 32);
src/demos/04_agents/05_rag_agent.py line 119 (512, 128). -/

/-- A static chunking strategy as passed to an attach call. -/
structure ChunkingStrategy where
  max_chunk_size_tokens : ℕ
  chunk_overlap_tokens : ℕ
deriving Repr, DecidableEq

/-- Every chunking configuration carried by an issued attach call in the
repository, in source order. -/
def attachChunkingConfigs : List ChunkingStrategy :=
  [⟨512, 64⟩, ⟨256, 32⟩, ⟨512, 64⟩, ⟨256, 32⟩, ⟨256, 32⟩, ⟨256, 32⟩,
   ⟨128, 16⟩, ⟨512, 64⟩, ⟨256, 32⟩, ⟨512, 128⟩]

/-! ## Model-listing filter (src/shared/utils.py lines 8-67)

A listed model object is modelled by its probed attributes: each of the
five type attributes and four identifier attributes is none when absent
or not a string, and the two metadata attributes are none when absent or
not a dict, otherwise an association list with string values. -/

/-- A model object as probed by _get_model_type and _get_model_id. -/
structure PyModel where
  model_type : Option String := none
  type : Option String := none
  model_kind : Option String := none
  kind : Option String := none
  model_family : Option String := none
  custom_metadata : Option (List (String × String)) := none
  metadata : Option (List (String × String)) := none
  identifier : Option String := none
  model_id : Option String := none
  id : Option String := none
  name : Option String := none
deriving Repr, DecidableEq

/-- Python dict.get on the association-list model of a metadata dict. -/
def dictGet (d : List (String × String)) (k : String) : Option String :=
  (d.find? fun p => p.1 == k).map Prod.snd

/-- The expression `metadata.get("model_type") or metadata.get("type")`
restricted to its string results: the first value when truthy, else the
second value when present. -/
def metadataTypeValue (d : List (String × String)) : Option String :=
  match dictGet d "model_type" with
  | some s => if s != "" then some s else dictGet d "type"
  | none => dictGet d "type"

/-- Embedding of _get_model_type: probe the five type attributes in
order, then the two metadata dicts. -/
def get_model_type (m : PyModel) : Option String :=
  match m.model_type <|> m.type <|> m.model_kind <|> m.kind <|> m.model_family with
  | some v => some v
  | none =>
    match m.custom_metadata with
    | some d =>
      match metadataTypeValue d with
      | some v => some v
      | none =>
        match m.metadata with
        | some d2 => metadataTypeValue d2
        | none => none
    | none =>
      match m.metadata with
      | some d2 => metadataTypeValue d2
      | none => none

/-- Embedding of _is_llm_model: a missing type counts as an LLM. -/
def is_llm_model (m : PyModel) : Bool :=
  match get_model_type m with
  | none => true
  | some t => t == "llm"

/-- Embedding of _get_model_id: probe the four identifier attributes in
order. -/
def get_model_id (m : PyModel) : Option String :=
  m.identifier <|> m.model_id <|> m.id <|> m.name

/-- The available_models list comprehension shared by
check_model_is_available and get_any_available_model: the resolved
identifiers that are truthy, whose model passes the LLM check, and that
do not contain the substring guard. -/
def availableModels (models : List PyModel) : List String :=
  models.filterMap fun m =>
    match get_model_id m with
    | some model_id =>
      if (model_id != "") && is_llm_model m && !(strContainsSub model_id "guard")
      then some model_id
      else none
    | none => none

/-- Embedding of check_model_is_available: True exactly when the
requested identifier occurs in the available list. -/
def check_model_is_available (models : List PyModel) (model : String) : Bool :=
  decide (model ∈ availableModels models)

/-- Embedding of get_any_available_model: the first available
identifier, none when the list is empty. -/
def get_any_available_model (models : List PyModel) : Option String :=
  (availableModels models).head?

/-! ## Multi-store retrieval (src/demos/03_rag/02_multi_source_rag.py
lines 140-149 and src/demos/03_rag/05_hybrid_search.py lines 246-295)

In the multi-source demo both vector stores are passed to one
responses.create call; in the hybrid demo a file_search call and a
web_search call are issued in sequence and their extracted results are
composed into two context blocks.  The remote calls are modelled as
Except-valued inputs (error models a raised connectivity exception);
neither call site is wrapped in a try/except in the source, so a raised
exception is modelled by error propagation through the Except monad. -/

/-- One web-search source as probed by the composer: the title, url and
link keys of the source dict. -/
structure WebSource where
  title : Option String := none
  url : Option String := none
  link : Option String := none
deriving Repr, DecidableEq

/-- Python `a or b` for an optional string and a string default. -/
def pyOrDefault (a : Option String) (b : String) : String :=
  match a with
  | some s => if s != "" then s else b
  | none => b

/-- Python `a or b` for two optional strings. -/
def pyOrOpt (a b : Option String) : Option String :=
  match a with
  | some s => if s != "" then some s else b
  | none => b

/-- The web-context lines of the hybrid demo (lines 271-277): for the
first five sources, `- <title or untitled> (<url or link or
unknown>)`. -/
def webContextLines (sources : List WebSource) : List String :=
  (sources.take 5).map fun source =>
    let title := pyOrDefault source.title "untitled"
    let url := pyOrDefault (pyOrOpt source.url source.link) "unknown"
    "- " ++ title ++ " (" ++ url ++ ")"

/-- The two context blocks assembled by the hybrid demo before the
synthesis call. -/
structure HybridContexts where
  local_context : String
  web_context : String
deriving Repr, DecidableEq

/-- The retrieval phase of the hybrid-search main: issue the file_search
call, then the web_search call, then compose the local context with
build_context and the web context lines.  An exception in either call
propagates (there is no try/except around these calls in the
source). -/
def hybridRetrievalPhase (file_search : Except String (List SearchResult))
    (web_search : Except String (List WebSource)) :
    Except String HybridContexts := do
  let fileResults ← file_search
  let webSources ← web_search
  pure { local_context := build_context fileResults,
         web_context := String.intercalate "\n" (webContextLines webSources) }

/-- The query of the multi-source demo: both store ids are passed to a
single responses.create call, whose outcome is the outcome of the whole
query. -/
def multiSourceQuery (respond : List String → Except String String)
    (store_a store_b : String) : Except String String :=
  respond [store_a, store_b]

/-! ## Math microservice
(src/deployment/kubernetes/mcp-servers/math-mcp/server.py lines 175-242,
the POST /calculate handler)

Float parameters are modelled as rationals and the integer parameter n
as an integer; a missing request field is none.  The float results of
power and sqrt are modelled symbolically (their numeric value is outside
a shallow embedding of floats); the error branches do not depend on
them.  An HTTPException carries its status code and detail; a raised
HTTPException is the Except error case, and since an error response body
carries no result field, the absence of result on the 400 path is
structural.  The final `except Exception` handler that converts an
unexpected (machine-level, e.g. float overflow) exception into HTTP 500
has no counterpart in the pure embedding, which cannot raise. -/

/-- The request body of POST /calculate. -/
structure MathOperation where
  operation : String
  a : Option ℚ := none
  b : Option ℚ := none
  value : Option ℚ := none
  base : Option ℚ := none
  exponent : Option ℚ := none
  n : Option ℤ := none
deriving Repr, DecidableEq

/-- A computed value: exact rational results for add, subtract,
multiply, divide and abs; symbolic results for power and sqrt; a natural
number for factorial. -/
inductive CalcVal where
  | rat (x : ℚ)
  | pow (base exponent : ℚ)
  | sqrtOf (value : ℚ)
  | int (n : ℕ)
deriving Repr, DecidableEq

/-- Rendering of a rational in a response message, standing in for
Python float formatting. -/
def numStr (q : ℚ) : String := toString q

/-- Rendering of a computed value in a response message. -/
def valStr : CalcVal → String
  | .rat x => numStr x
  | .pow base exponent => numStr base ++ " ** " ++ numStr exponent
  | .sqrtOf value => "sqrt " ++ numStr value
  | .int n => toString n

/-- The success body {result, message}. -/
structure MathResult where
  result : CalcVal
  message : String
deriving Repr, DecidableEq

/-- A raised HTTPException: status code and detail. -/
structure HTTPError where
  status_code : ℕ
  detail : String
deriving Repr, DecidableEq

/-- The branch dispatch of the calculate handler on the lowered
operation name. -/
def calcCore (operation : String) (op : MathOperation) :
    Except HTTPError MathResult :=
  if operation = "add" then
    match op.a, op.b with
    | some a, some b =>
      .ok ⟨.rat (a + b), numStr a ++ " + " ++ numStr b ++ " = " ++ numStr (a + b)⟩
    | _, _ => .error ⟨400, "Parameters \x27a\x27 and \x27b\x27 are required"⟩
  else if operation = "subtract" then
    match op.a, op.b with
    | some a, some b =>
      .ok ⟨.rat (a - b), numStr a ++ " - " ++ numStr b ++ " = " ++ numStr (a - b)⟩
    | _, _ => .error ⟨400, "Parameters \x27a\x27 and \x27b\x27 are required"⟩
  else if operation = "multiply" then
    match op.a, op.b with
    | some a, some b =>
      .ok ⟨.rat (a * b), numStr a ++ " × " ++ numStr b ++ " = " ++ numStr (a * b)⟩
    | _, _ => .error ⟨400, "Parameters \x27a\x27 and \x27b\x27 are required"⟩
  else if operation = "divide" then
    match op.a, op.b with
    | some a, some b =>
      if b = 0 then .error ⟨400, "Division by zero is not allowed"⟩
      else .ok ⟨.rat (a / b), numStr a ++ " ÷ " ++ numStr b ++ " = " ++ numStr (a / b)⟩
    | _, _ => .error ⟨400, "Parameters \x27a\x27 and \x27b\x27 are required"⟩
  else if operation = "power" then
    match op.base, op.exponent with
    | some base, some exponent =>
      .ok ⟨.pow base exponent, numStr base ++ " ^ " ++ numStr exponent ++ " = "
        ++ valStr (.pow base exponent)⟩
    | _, _ => .error ⟨400, "Parameters \x27base\x27 and \x27exponent\x27 are required"⟩
  else if operation = "sqrt" then
    match op.value with
    | some value =>
      if value < 0 then
        .error ⟨400, "Cannot calculate square root of negative number"⟩
      else .ok ⟨.sqrtOf value, "√" ++ numStr value ++ " = " ++ valStr (.sqrtOf value)⟩
    | none => .error ⟨400, "Parameter \x27value\x27 is required"⟩
  else if operation = "abs" then
    match op.value with
    | some value =>
      .ok ⟨.rat |value|, "|" ++ numStr value ++ "| = " ++ numStr |value|⟩
    | none => .error ⟨400, "Parameter \x27value\x27 is required"⟩
  else if operation = "factorial" then
    match op.n with
    | some n =>
      if n < 0 then
        .error ⟨400, "Factorial is only defined for non-negative integers"⟩
      else .ok ⟨.int (Nat.factorial n.toNat),
        toString n ++ "! = " ++ toString (Nat.factorial n.toNat)⟩
    | none => .error ⟨400, "Parameter \x27n\x27 is required"⟩
  else .error ⟨400, "Unknown operation: " ++ operation⟩

/-- Embedding of the calculate handler: lower the operation name, then
dispatch. -/
def calculate (op : MathOperation) : Except HTTPError MathResult :=
  calcCore (pyLower op.operation) op

/-! ## Lemmas and claim theorems -/

/-- The per-entry fragment extraction of build_context agrees with the
spec-side extraction: keeping the truthy fragments and stripping each is
the same as keeping the present, non-empty fragments and stripping
each. -/
lemma fragments_eq (l : List SearchContent) :
    (l.filterMap fun content =>
      if pyTruthy content.text then some (pyStrip (content.text.getD "")) else none)
      = ((l.filterMap SearchContent.text).filter (fun s => s != "")).map pyStrip := by
  induction l with
  | nil => rfl
  | cons c cs ih =>
    cases h : c.text with
    | none => simpa [List.filterMap_cons, h, pyTruthy] using ih
    | some s =>
      by_cases hs : s = ""
      · simpa [List.filterMap_cons, h, pyTruthy, hs] using ih
      · simpa [List.filterMap_cons, h, pyTruthy, hs] using ih

/-- The joined snippet computed by build_context agrees with the
spec-side joined text. -/
lemma resultSnippet_eq_specJoinedText (result : SearchResult) :
    resultSnippet result = specJoinedText result := by
  unfold resultSnippet specJoinedText
  rw [fragments_eq]

/-- The per-entry line emitted by build_context agrees with the
spec-side line. -/
lemma contextLine_eq_specEntryLine (result : SearchResult) :
    (if resultSnippet result = "" then none
      else some ("- " ++ result.filename ++ " (score=" ++ formatScore2 result.score
        ++ "): " ++ resultSnippet result))
      = specEntryLine result := by
  simp only [specEntryLine, resultSnippet_eq_specJoinedText]

/-- The list of entry lines computed by build_context agrees with the
fold over spec-side lines used by the spec-side composer. -/
lemma filterMap_lines_eq_foldr (l : List SearchResult) :
    (l.filterMap fun result =>
      let snippet := resultSnippet result
      if snippet = "" then none
      else some ("- " ++ result.filename ++ " (score=" ++ formatScore2 result.score
        ++ "): " ++ snippet))
      = l.foldr (fun r acc =>
          match specEntryLine r with
          | some line => line :: acc
          | none => acc) [] := by
  induction l with
  | nil => rfl
  | cons x xs ih =>
    by_cases h : resultSnippet x = "" <;>
      simp [List.filterMap_cons, specEntryLine, ← resultSnippet_eq_specJoinedText x, h, ih]

/-! ## Claims C1 and C4: build_context output shape -/

/-- C1 counterexample: a non-empty search-result list whose single entry
has an empty joined text.  build_context returns the header line alone,
not the empty string, refuting the claim at this input. -/
theorem build_context_header_alone_counterexample :
    resultSnippet { content := [⟨some "   "⟩], filename := "empty.txt", score := 5 } = ""
      ∧ build_context
          [{ content := [⟨some "   "⟩], filename := "empty.txt", score := 5 }]
          = "Context from uploaded documents:"
      ∧ ("Context from uploaded documents:" : String) ≠ "" :=
  ⟨by decide, by decide, by decide⟩

/-- C1 (amended): build_context returns the empty string for the empty
search-result list; for a non-empty list in which no entry survives
filtering (every joined text is empty) it returns the header line
alone. -/
theorem build_context_no_survivors (search_results : List SearchResult) :
    build_context [] = ""
      ∧ (search_results ≠ [] → (∀ r ∈ search_results, resultSnippet r = "") →
          build_context search_results = "Context from uploaded documents:") := by
  refine ⟨rfl, fun hne hall => ?_⟩
  match search_results, hne with
  | r :: rest, _ =>
    have hnil : ((r :: rest).filterMap fun result =>
        let snippet := resultSnippet result
        if snippet = "" then none
        else some ("- " ++ result.filename ++ " (score=" ++ formatScore2 result.score
          ++ "): " ++ snippet)) = [] :=
      List.filterMap_eq_nil_iff.mpr (fun a ha => by simp [hall a ha])
    show String.intercalate "\n" ("Context from uploaded documents:" ::
        ((r :: rest).filterMap fun result =>
          let snippet := resultSnippet result
          if snippet = "" then none
          else some ("- " ++ result.filename ++ " (score=" ++ formatScore2 result.score
            ++ "): " ++ snippet))) = "Context from uploaded documents:"
    rw [hnil]
    rfl

/-- Witness for C1 (amended) at a concrete two-entry list with only
whitespace and absent fragments. -/
theorem build_context_no_survivors_witness :
    build_context [] = ""
      ∧ build_context
          [{ content := [⟨some " "⟩, ⟨none⟩], filename := "w.txt", score := 5 },
           { content := [], filename := "v.txt", score := 7 }]
          = "Context from uploaded documents:" :=
  ⟨(build_context_no_survivors []).1,
    (build_context_no_survivors
      [{ content := [⟨some " "⟩, ⟨none⟩], filename := "w.txt", score := 5 },
       { content := [], filename := "v.txt", score := 7 }]).2
      (by decide) (by decide)⟩

/-- C4 counterexample: at the empty input list, build_context returns
the empty string and not the header line followed by zero entry lines,
refuting the claim as stated for every list. -/
theorem build_context_empty_counterexample :
    build_context [] = "" ∧ ("" : String) ≠ "Context from uploaded documents:" :=
  ⟨rfl, by decide⟩

/-- C4 (amended): for every search-result list, build_context agrees
byte for byte with the spec-side rendering: the empty string on an empty
list, and otherwise the constant header followed by one line
`- <filename> (score=<two decimals>): <joined text>` per entry with a
non-empty joined text, in input order, where the joined text is the
present non-empty fragments, each stripped, joined with single spaces
and the join stripped.  Both sides are functions of the input alone, so
the output is reproducible. -/
theorem build_context_matches_spec (search_results : List SearchResult) :
    build_context search_results = buildContextSpec search_results := by
  match search_results with
  | [] => rfl
  | r :: rest =>
    show String.intercalate "\n" ("Context from uploaded documents:" ::
        ((r :: rest).filterMap fun result =>
          let snippet := resultSnippet result
          if snippet = "" then none
          else some ("- " ++ result.filename ++ " (score=" ++ formatScore2 result.score
            ++ "): " ++ snippet)))
        = String.intercalate "\n" ("Context from uploaded documents:" ::
          (r :: rest).foldr (fun r acc =>
            match specEntryLine r with
            | some line => line :: acc
            | none => acc) [])
    rw [filterMap_lines_eq_foldr]

example : build_context [] = "" := by decide
example :
    build_context [{ content := [], filename := "doc.txt", score := 5 }] =
      "Context from uploaded documents:" := by decide
example :
    build_context [{ content := [⟨some " alpha "⟩, ⟨some ""⟩, ⟨some "beta"⟩],
                     filename := "a.txt", score := ⟨87, 100, by decide, by decide⟩ }] =
      "Context from uploaded documents:\n- a.txt (score=0.87): alpha beta" := by decide

/-- Unfolding lemma: the loop exits at once when the status is not
in_progress. -/
lemma pollLoop_exit (fetch : ℕ → FileResponse) (timeoutMs : ℤ)
    (response : FileResponse) (elapsedMs : ℤ) (sleeps refetches : ℕ)
    (h : response.status ≠ "in_progress") :
    pollLoop fetch timeoutMs response elapsedMs sleeps refetches
      = (response, elapsedMs, sleeps, refetches) := by
  unfold pollLoop
  simp [h]

/-- Unfolding lemma: the loop sleeps once more and breaks when the
timeout is exceeded. -/
lemma pollLoop_break (fetch : ℕ → FileResponse) (timeoutMs : ℤ)
    (response : FileResponse) (elapsedMs : ℤ) (sleeps refetches : ℕ)
    (h1 : response.status = "in_progress") (h2 : timeoutMs < elapsedMs + 200) :
    pollLoop fetch timeoutMs response elapsedMs sleeps refetches
      = (response, elapsedMs + 200, sleeps + 1, refetches) := by
  unfold pollLoop
  simp [h1, h2]

/-- Unfolding lemma: one full loop iteration sleeps and re-fetches. -/
lemma pollLoop_step (fetch : ℕ → FileResponse) (timeoutMs : ℤ)
    (response : FileResponse) (elapsedMs : ℤ) (sleeps refetches : ℕ)
    (h1 : response.status = "in_progress") (h2 : ¬ timeoutMs < elapsedMs + 200) :
    pollLoop fetch timeoutMs response elapsedMs sleeps refetches
      = pollLoop fetch timeoutMs (fetch refetches) (elapsedMs + 200) (sleeps + 1)
          (refetches + 1) := by
  conv_lhs => unfold pollLoop
  simp [h1, h2]

/-- Characterization of attach_file in terms of the loop result. -/
lemma attach_file_eq (initial : FileResponse) (fetch : ℕ → FileResponse)
    (timeoutMs : ℤ) (filename : String)
    (resp : FileResponse) (elapsed : ℤ) (sleeps refetches : ℕ)
    (hres : pollLoop fetch timeoutMs initial 0 0 0 = (resp, elapsed, sleeps, refetches)) :
    attach_file initial fetch timeoutMs filename =
      if resp.status = "completed" then
        ⟨true, refetches, sleeps, elapsed, none⟩
      else if timeoutMs < elapsed ∧ resp.status = "in_progress" then
        ⟨false, refetches, sleeps, elapsed,
          some (.timedOut ("Timed out attaching " ++ filename))⟩
      else
        ⟨false, refetches, sleeps, elapsed,
          some (.failed ("Failed to attach " ++ filename ++
            (match resp.last_error.map LastError.message with
             | some msg => if msg != "" then ": " ++ msg else ""
             | none => "")))⟩ := by
  unfold attach_file
  rw [hres]

/-- If every observed status is in_progress, the loop ends with an
in_progress response and an elapsed time in the half-open interval
(timeout, timeout + one interval]. -/
lemma pollLoop_never_leaves (fetch : ℕ → FileResponse) (timeoutMs : ℤ)
    (hf : ∀ k, (fetch k).status = "in_progress") :
    ∀ response elapsedMs sleeps refetches, response.status = "in_progress" →
      elapsedMs ≤ timeoutMs →
      (pollLoop fetch timeoutMs response elapsedMs sleeps refetches).1.status
          = "in_progress"
        ∧ timeoutMs < (pollLoop fetch timeoutMs response elapsedMs sleeps refetches).2.1
        ∧ (pollLoop fetch timeoutMs response elapsedMs sleeps refetches).2.1
            ≤ timeoutMs + 200 := by
  intro response elapsedMs sleeps refetches h0 hle
  generalize hm : (timeoutMs - elapsedMs).toNat = m
  induction m using Nat.strong_induction_on
    generalizing response elapsedMs sleeps refetches with
  | _ m ih =>
    by_cases hbr : timeoutMs < elapsedMs + 200
    · rw [pollLoop_break fetch timeoutMs response elapsedMs sleeps refetches h0 hbr]
      exact ⟨h0, hbr, show elapsedMs + 200 ≤ timeoutMs + 200 by omega⟩
    · rw [pollLoop_step fetch timeoutMs response elapsedMs sleeps refetches h0 hbr]
      exact ih (timeoutMs - (elapsedMs + 200)).toNat (by omega)
        (fetch refetches) (elapsedMs + 200) (sleeps + 1) (refetches + 1)
        (hf refetches) (by omega) rfl

/-- C2: if the attachment state never leaves in_progress, _attach_file
returns False, classifies the outcome as a timeout (printing the
timed-out message, not the failure message), and its polling loop exits
within timeout plus one 200 ms poll interval. -/
theorem attach_file_timeout (initial : FileResponse) (fetch : ℕ → FileResponse)
    (timeoutMs : ℤ) (filename : String)
    (ht : 0 ≤ timeoutMs) (h0 : initial.status = "in_progress")
    (hf : ∀ k, (fetch k).status = "in_progress") :
    (attach_file initial fetch timeoutMs filename).success = false
      ∧ (attach_file initial fetch timeoutMs filename).report
          = some (AttachReport.timedOut ("Timed out attaching " ++ filename))
      ∧ timeoutMs < (attach_file initial fetch timeoutMs filename).elapsedMs
      ∧ (attach_file initial fetch timeoutMs filename).elapsedMs ≤ timeoutMs + 200 := by
  have h := pollLoop_never_leaves fetch timeoutMs hf initial 0 0 0 h0 ht
  rcases hres : pollLoop fetch timeoutMs initial 0 0 0 with ⟨resp, elapsed, sleeps, refetches⟩
  rw [hres] at h
  obtain ⟨hstat, hlt, hle⟩ := h
  have hstat2 : resp.status = "in_progress" := hstat
  have hlt2 : timeoutMs < elapsed := hlt
  have hle2 : elapsed ≤ timeoutMs + 200 := hle
  rw [attach_file_eq initial fetch timeoutMs filename resp elapsed sleeps refetches hres]
  rw [if_neg (by rw [hstat2]; decide), if_pos ⟨hlt2, hstat2⟩]
  exact ⟨rfl, rfl, hlt2, hle2⟩

/-- Witness for C2 at a 500 ms timeout and a fetch oracle that always
reports in_progress. -/
theorem attach_file_timeout_witness :
    (attach_file ⟨"in_progress", none⟩ (fun _ => ⟨"in_progress", none⟩) 500
        "doc.rst").success = false
      ∧ (attach_file ⟨"in_progress", none⟩ (fun _ => ⟨"in_progress", none⟩) 500
          "doc.rst").report
          = some (AttachReport.timedOut ("Timed out attaching " ++ "doc.rst"))
      ∧ (500 : ℤ) < (attach_file ⟨"in_progress", none⟩
          (fun _ => ⟨"in_progress", none⟩) 500 "doc.rst").elapsedMs
      ∧ (attach_file ⟨"in_progress", none⟩ (fun _ => ⟨"in_progress", none⟩) 500
          "doc.rst").elapsedMs ≤ 500 + 200 :=
  attach_file_timeout ⟨"in_progress", none⟩ (fun _ => ⟨"in_progress", none⟩) 500
    "doc.rst" (by decide) rfl (fun _ => rfl)

/-- C3: the number of retrieve calls equals the position of the first
observation that is not in_progress.  First scenario: an initial
completed response returns True after zero re-fetches and zero sleeps.
Second scenario: an initial in_progress response followed by two
in_progress re-fetches and a completed third re-fetch returns True after
exactly three re-fetches and three sleeps, the timeout (at least 600 ms)
not being reached. -/
theorem attach_file_poll_counts (initial : FileResponse) (fetch : ℕ → FileResponse)
    (timeoutMs : ℤ) (filename : String) :
    (initial.status = "completed" →
        (attach_file initial fetch timeoutMs filename).success = true
          ∧ (attach_file initial fetch timeoutMs filename).refetches = 0
          ∧ (attach_file initial fetch timeoutMs filename).sleeps = 0)
      ∧ (initial.status = "in_progress" →
          (fetch 0).status = "in_progress" → (fetch 1).status = "in_progress" →
          (fetch 2).status = "completed" → 600 ≤ timeoutMs →
            (attach_file initial fetch timeoutMs filename).success = true
              ∧ (attach_file initial fetch timeoutMs filename).refetches = 3
              ∧ (attach_file initial fetch timeoutMs filename).sleeps = 3) := by
  constructor
  · intro hc
    have hres := pollLoop_exit fetch timeoutMs initial 0 0 0 (by rw [hc]; decide)
    rw [attach_file_eq initial fetch timeoutMs filename initial 0 0 0 hres, if_pos hc]
    exact ⟨rfl, rfl, rfl⟩
  · intro h0 hf0 hf1 hf2 h600
    have s1 := pollLoop_step fetch timeoutMs initial 0 0 0 h0 (by omega)
    have s2 := pollLoop_step fetch timeoutMs (fetch 0) (0 + 200) (0 + 1) (0 + 1)
      hf0 (by omega)
    have s3 := pollLoop_step fetch timeoutMs (fetch 1) (0 + 200 + 200) (0 + 1 + 1)
      (0 + 1 + 1) hf1 (by omega)
    have s4 := pollLoop_exit fetch timeoutMs (fetch 2) (0 + 200 + 200 + 200)
      (0 + 1 + 1 + 1) (0 + 1 + 1 + 1) (by rw [hf2]; decide)
    have hres : pollLoop fetch timeoutMs initial 0 0 0
        = (fetch 2, 0 + 200 + 200 + 200, 0 + 1 + 1 + 1, 0 + 1 + 1 + 1) := by
      rw [s1, s2, s3, s4]
    rw [attach_file_eq initial fetch timeoutMs filename (fetch 2)
      (0 + 200 + 200 + 200) (0 + 1 + 1 + 1) (0 + 1 + 1 + 1) hres, if_pos hf2]
    exact ⟨rfl, rfl, rfl⟩

/-- Witness for C3 at concrete oracles: an immediately completed attach,
and an attach that is in_progress on the initial response and the first
two re-fetches and completed on the third, under the default 30 s
timeout. -/
theorem attach_file_poll_counts_witness :
    ((attach_file ⟨"completed", none⟩ (fun _ => ⟨"completed", none⟩) 30000
          "a.rst").success = true
        ∧ (attach_file ⟨"completed", none⟩ (fun _ => ⟨"completed", none⟩) 30000
            "a.rst").refetches = 0
        ∧ (attach_file ⟨"completed", none⟩ (fun _ => ⟨"completed", none⟩) 30000
            "a.rst").sleeps = 0)
      ∧ ((attach_file ⟨"in_progress", none⟩
            (fun k => if k < 2 then ⟨"in_progress", none⟩ else ⟨"completed", none⟩)
            30000 "b.rst").success = true
          ∧ (attach_file ⟨"in_progress", none⟩
              (fun k => if k < 2 then ⟨"in_progress", none⟩ else ⟨"completed", none⟩)
              30000 "b.rst").refetches = 3
          ∧ (attach_file ⟨"in_progress", none⟩
              (fun k => if k < 2 then ⟨"in_progress", none⟩ else ⟨"completed", none⟩)
              30000 "b.rst").sleeps = 3) :=
  ⟨(attach_file_poll_counts ⟨"completed", none⟩ (fun _ => ⟨"completed", none⟩)
      30000 "a.rst").1 rfl,
    (attach_file_poll_counts ⟨"in_progress", none⟩
      (fun k => if k < 2 then ⟨"in_progress", none⟩ else ⟨"completed", none⟩)
      30000 "b.rst").2 rfl rfl rfl rfl (by decide)⟩

/-- C9: when the initial attach response has a status that is neither
in_progress nor completed (such as pending), _attach_file performs zero
re-fetches and zero sleeps, classifies the outcome as a failure (not a
timeout) and returns False. -/
theorem attach_file_unknown_status (initial : FileResponse)
    (fetch : ℕ → FileResponse) (timeoutMs : ℤ) (filename : String)
    (h1 : initial.status ≠ "in_progress") (h2 : initial.status ≠ "completed") :
    (attach_file initial fetch timeoutMs filename).success = false
      ∧ (attach_file initial fetch timeoutMs filename).refetches = 0
      ∧ (attach_file initial fetch timeoutMs filename).sleeps = 0
      ∧ ∃ printed, (attach_file initial fetch timeoutMs filename).report
          = some (AttachReport.failed printed) := by
  have hres := pollLoop_exit fetch timeoutMs initial 0 0 0 h1
  rw [attach_file_eq initial fetch timeoutMs filename initial 0 0 0 hres,
    if_neg h2, if_neg (fun hk => h1 hk.2)]
  exact ⟨rfl, rfl, rfl, _, rfl⟩

/-- Witness for C9 at a concrete initial response with status
pending. -/
theorem attach_file_unknown_status_witness :
    (attach_file ⟨"pending", none⟩ (fun _ => ⟨"pending", none⟩) 30000
        "c.rst").success = false
      ∧ (attach_file ⟨"pending", none⟩ (fun _ => ⟨"pending", none⟩) 30000
          "c.rst").refetches = 0
      ∧ (attach_file ⟨"pending", none⟩ (fun _ => ⟨"pending", none⟩) 30000
          "c.rst").sleeps = 0
      ∧ ∃ printed, (attach_file ⟨"pending", none⟩ (fun _ => ⟨"pending", none⟩)
          30000 "c.rst").report = some (AttachReport.failed printed) :=
  attach_file_unknown_status ⟨"pending", none⟩ (fun _ => ⟨"pending", none⟩)
    30000 "c.rst" (by decide) (by decide)

/-! ## Claim C5: empty content rejected at the collection stage -/

/-- C5 counterexample: a directory listing holding a single zero-byte
file.  The local-directory path collects it and submits its empty
content to files.create, refuting the claim that both collection paths
reject empty content. -/
theorem empty_local_file_uploaded_counterexample :
    ("" : String) ∈ localPathUploads (some [{ name := "empty.txt", content := "" }]) := by
  decide

/-- C5 (amended): the URL-download path rejects empty content (every
content it returns for upload is non-empty after stripping), but the
local-directory path performs no content check: a non-empty listing is
collected unchanged, zero-byte files included. -/
theorem collection_stage_empty_content (fetches : List UrlFetch)
    (files : List LocalFile) :
    (∀ c ∈ download_documents fetches, c ≠ "")
      ∧ (files ≠ [] → collect_local_files (some files) = files) := by
  constructor
  · intro c hc
    rw [download_documents, List.mem_filterMap] at hc
    obtain ⟨f, _, hf⟩ := hc
    match hfe : f.fetched with
    | none => rw [hfe] at hf; exact absurd hf (by simp)
    | some content =>
      rw [hfe] at hf
      have hf2 : (if pyStrip content = "" then none else some (pyStrip content))
          = some c := hf
      by_cases hs : pyStrip content = ""
      · rw [if_pos hs] at hf2
        exact absurd hf2 (by simp)
      · rw [if_neg hs] at hf2
        simp only [Option.some.injEq] at hf2
        rw [← hf2]
        exact hs
  · intro hne
    rw [collect_local_files, if_neg (by simpa using hne)]

/-- Witness for C5 (amended) at one fetched URL with padded text and
one non-empty local listing holding a zero-byte file. -/
theorem collection_stage_empty_content_witness :
    (∀ c ∈ download_documents [{ url := "http://h/a.rst", fetched := some " text " }],
        c ≠ "")
      ∧ collect_local_files (some [{ name := "empty.txt", content := "" },
            { name := "b.txt", content := "body" }])
          = [{ name := "empty.txt", content := "" }, { name := "b.txt", content := "body" }] :=
  ⟨(collection_stage_empty_content [{ url := "http://h/a.rst", fetched := some " text " }]
      []).1,
    (collection_stage_empty_content []
      [{ name := "empty.txt", content := "" }, { name := "b.txt", content := "body" }]).2
      (by decide)⟩

/-- C7: every chunking configuration carried by an issued attach call
satisfies 0 < max_chunk_size_tokens and chunk_overlap_tokens <
max_chunk_size_tokens.  All configurations are literal constants
established locally before the call, so no violating configuration is
ever sent. -/
theorem chunking_configs_valid :
    attachChunkingConfigs.all
      (fun c => decide (0 < c.max_chunk_size_tokens
        ∧ c.chunk_overlap_tokens < c.max_chunk_size_tokens)) = true := by
  decide

/-- Membership in the available list unfolded. -/
lemma mem_availableModels (models : List PyModel) (i : String) :
    i ∈ availableModels models ↔
      ∃ m ∈ models, get_model_id m = some i ∧ (i != "") = true
        ∧ is_llm_model m = true ∧ strContainsSub i "guard" = false := by
  rw [availableModels, List.mem_filterMap]
  constructor
  · rintro ⟨m, hm, hf⟩
    refine ⟨m, hm, ?_⟩
    match hid : get_model_id m with
    | none => rw [hid] at hf; exact absurd hf (by simp)
    | some j =>
      rw [hid] at hf
      have hf2 : (if (j != "") && is_llm_model m && !(strContainsSub j "guard")
          then some j else none) = some i := hf
      by_cases hcond :
          ((j != "") && is_llm_model m && !(strContainsSub j "guard")) = true
      · rw [if_pos hcond] at hf2
        simp only [Option.some.injEq] at hf2
        subst hf2
        simp only [Bool.and_eq_true, Bool.not_eq_eq_eq_not, Bool.not_true] at hcond
        exact ⟨rfl, hcond.1.1, hcond.1.2, hcond.2⟩
      · rw [if_neg hcond] at hf2
        exact absurd hf2 (by simp)
  · rintro ⟨m, hm, hid, hne, hllm, hguard⟩
    refine ⟨m, hm, ?_⟩
    rw [hid]
    show (if (i != "") && is_llm_model m && !(strContainsSub i "guard")
        then some i else none) = some i
    rw [if_pos (by simp [hne, hllm, hguard])]

/-! ## Claim C10: guard models and non-LLM models are filtered out -/

/-- C10 counterexample: two listed models share the resolved identifier
alpha, one typed embedding and one typed llm.  The embedding-typed model
resolves to alpha and has a type other than llm, yet
check_model_is_available accepts alpha and get_any_available_model
returns it, because the llm-typed duplicate contributes the identifier
to the available list. -/
theorem model_filter_duplicate_id_counterexample :
    get_model_id { identifier := some "alpha", model_type := some "embedding" }
        = some "alpha"
      ∧ get_model_type { identifier := some "alpha", model_type := some "embedding" }
          = some "embedding"
      ∧ check_model_is_available
          [{ identifier := some "alpha", model_type := some "embedding" },
           { identifier := some "alpha", model_type := some "llm" }] "alpha" = true
      ∧ get_any_available_model
          [{ identifier := some "alpha", model_type := some "embedding" },
           { identifier := some "alpha", model_type := some "llm" }] = some "alpha" := by
  refine ⟨rfl, rfl, by decide, rfl⟩

/-- C10 (amended): an identifier containing guard is never accepted by
check_model_is_available; an identifier every one of whose resolving
listed models fails the LLM check is never accepted; and any identifier
returned by get_any_available_model is guard-free, non-empty, and
resolved by at least one listed model that passes the LLM check. -/
theorem model_filter_guard_and_type (models : List PyModel) (model : String) :
    (strContainsSub model "guard" = true →
        check_model_is_available models model = false)
      ∧ ((∀ m ∈ models, get_model_id m = some model → is_llm_model m = false) →
          check_model_is_available models model = false)
      ∧ (∀ i, get_any_available_model models = some i →
          strContainsSub i "guard" = false ∧ (i != "") = true
            ∧ ∃ m ∈ models, get_model_id m = some i ∧ is_llm_model m = true) := by
  refine ⟨fun hg => ?_, fun hall => ?_, fun i hi => ?_⟩
  · rw [check_model_is_available, decide_eq_false_iff_not]
    intro hmem
    rw [mem_availableModels] at hmem
    obtain ⟨m, _, _, _, _, hguard⟩ := hmem
    rw [hg] at hguard
    cases hguard
  · rw [check_model_is_available, decide_eq_false_iff_not]
    intro hmem
    rw [mem_availableModels] at hmem
    obtain ⟨m, hm, hid, _, hllm, _⟩ := hmem
    rw [hall m hm hid] at hllm
    cases hllm
  · have hmem : i ∈ availableModels models := by
      cases hav : availableModels models with
      | nil => rw [get_any_available_model, hav] at hi; cases hi
      | cons hd tl =>
        rw [get_any_available_model, hav] at hi
        simp only [List.head?_cons, Option.some.injEq] at hi
        rw [← hi]
        exact List.mem_cons_self hd tl
    rw [mem_availableModels] at hmem
    obtain ⟨m, hm, hid, hne, hllm, hguard⟩ := hmem
    exact ⟨hguard, hne, m, hm, hid, hllm⟩

/-- Witness for C10 (amended) at concrete model listings: a guard model
identifier is rejected, an identifier resolved only by an
embedding-typed model is rejected, and the identifier returned for a
singleton llm listing is guard-free and resolved by an LLM. -/
theorem model_filter_guard_and_type_witness :
    check_model_is_available
        [{ identifier := some "llama-guard-3", model_type := some "llm" }]
        "llama-guard-3" = false
      ∧ check_model_is_available
          [{ identifier := some "bge-large", model_type := some "embedding" }]
          "bge-large" = false
      ∧ (strContainsSub "granite-llm" "guard" = false
          ∧ ("granite-llm" != "") = true
          ∧ ∃ m ∈ [{ identifier := some "granite-llm", model_type := some "llm" } ],
              get_model_id m = some "granite-llm" ∧ is_llm_model m = true) :=
  ⟨(model_filter_guard_and_type
      [{ identifier := some "llama-guard-3", model_type := some "llm" }]
      "llama-guard-3").1 (by decide),
    (model_filter_guard_and_type
      [{ identifier := some "bge-large", model_type := some "embedding" }]
      "bge-large").2.1 (by decide),
    (model_filter_guard_and_type
      [{ identifier := some "granite-llm", model_type := some "llm" }]
      "granite-llm").2.2 "granite-llm" rfl⟩

/-! ## Claim C6: per-store failure isolation -/

/-- C6 counterexample: the file_search call raises a connectivity error
while the web_search call would succeed with a source; the retrieval
phase evaluates to that error: the failure propagates past the composer
and no partial context is composed from the successful call. -/
theorem hybrid_search_error_propagates_counterexample :
    hybridRetrievalPhase (Except.error "connection refused")
        (Except.ok [{ title := some "t", url := some "http://u" }])
      = Except.error "connection refused" := rfl

/-- C6 (amended): a search failure is not caught by the demos.  In the
hybrid demo an error from the file_search call propagates out of the
retrieval phase (aborting the web search), an error from the web_search
call propagates as well, and only when both calls succeed are the two
contexts composed.  In the multi-source demo both stores are queried in
one call, so no client-side per-store partial composition exists. -/
theorem search_failure_propagates (e : String)
    (web_search : Except String (List WebSource)) (fileResults : List SearchResult)
    (respond : List String → Except String String) (store_a store_b : String) :
    hybridRetrievalPhase (Except.error e) web_search = Except.error e
      ∧ (∀ e2, hybridRetrievalPhase (Except.ok fileResults) (Except.error e2)
          = Except.error e2)
      ∧ (∀ webSources, hybridRetrievalPhase (Except.ok fileResults)
          (Except.ok webSources)
          = Except.ok { local_context := build_context fileResults,
                        web_context :=
                          String.intercalate "\n" (webContextLines webSources) })
      ∧ multiSourceQuery respond store_a store_b = respond [store_a, store_b] :=
  ⟨rfl, fun _ => rfl, fun _ => rfl, rfl⟩

/-- An operation name outside the eight supported ones reaches the final
else branch with a 400. -/
lemma calcCore_unknown (operation : String) (op : MathOperation)
    (h1 : operation ≠ "add") (h2 : operation ≠ "subtract")
    (h3 : operation ≠ "multiply") (h4 : operation ≠ "divide")
    (h5 : operation ≠ "power") (h6 : operation ≠ "sqrt")
    (h7 : operation ≠ "abs") (h8 : operation ≠ "factorial") :
    calcCore operation op = .error ⟨400, "Unknown operation: " ++ operation⟩ := by
  unfold calcCore
  rw [if_neg h1, if_neg h2, if_neg h3, if_neg h4, if_neg h5, if_neg h6, if_neg h7,
    if_neg h8]

/-! ## Claim C8: calculate status codes and bodies -/

/-- C8: divide by zero, negative sqrt input, negative factorial input,
missing parameters and unknown operations yield HTTP 400 (where the
divide case carries a division-by-zero detail and, being an error, no
result field); valid divide and add requests yield a body with a result
and a message. -/
theorem calculate_status_codes (a b value : ℚ) (n : ℤ) (op : MathOperation) :
    calculate { operation := "divide", a := some a, b := some 0 }
        = .error ⟨400, "Division by zero is not allowed"⟩
      ∧ (b ≠ 0 → ∃ msg, calculate { operation := "divide", a := some a, b := some b }
          = .ok ⟨.rat (a / b), msg⟩)
      ∧ (value < 0 → calculate { operation := "sqrt", value := some value }
          = .error ⟨400, "Cannot calculate square root of negative number"⟩)
      ∧ (n < 0 → calculate { operation := "factorial", n := some n }
          = .error ⟨400, "Factorial is only defined for non-negative integers"⟩)
      ∧ calculate { operation := "divide", a := some a }
          = .error ⟨400, "Parameters \x27a\x27 and \x27b\x27 are required"⟩
      ∧ (pyLower op.operation ∉ (["add", "subtract", "multiply", "divide", "power",
            "sqrt", "abs", "factorial"] : List String) →
          calculate op = .error ⟨400, "Unknown operation: " ++ pyLower op.operation⟩)
      ∧ ∃ msg, calculate { operation := "add", a := some a, b := some b }
          = .ok ⟨.rat (a + b), msg⟩ := by
  refine ⟨?_, fun hb => ?_, fun hv => ?_, fun hn => ?_, ?_, fun hop => ?_, ⟨_, rfl⟩⟩
  · rfl
  · have hd : calculate { operation := "divide", a := some a, b := some b }
        = if b = 0 then .error ⟨400, "Division by zero is not allowed"⟩
          else .ok ⟨.rat (a / b), numStr a ++ " ÷ " ++ numStr b ++ " = "
            ++ numStr (a / b)⟩ := rfl
    rw [hd, if_neg hb]
    exact ⟨_, rfl⟩
  · have hs : calculate { operation := "sqrt", value := some value }
        = if value < 0 then
            .error ⟨400, "Cannot calculate square root of negative number"⟩
          else .ok ⟨.sqrtOf value, "√" ++ numStr value ++ " = "
            ++ valStr (.sqrtOf value)⟩ := rfl
    rw [hs, if_pos hv]
  · have hfac : calculate { operation := "factorial", n := some n }
        = if n < 0 then
            .error ⟨400, "Factorial is only defined for non-negative integers"⟩
          else .ok ⟨.int (Nat.factorial n.toNat),
            toString n ++ "! = " ++ toString (Nat.factorial n.toNat)⟩ := rfl
    rw [hfac, if_pos hn]
  · rfl
  · simp only [List.mem_cons, List.mem_singleton, not_or] at hop
    obtain ⟨g1, g2, g3, g4, g5, g6, g7, g8, -⟩ := hop
    exact calcCore_unknown (pyLower op.operation) op g1 g2 g3 g4 g5 g6 g7 g8

/-- Witness for C8 at concrete requests: divide 5 by 2 and an unknown
operation modulo. -/
theorem calculate_status_codes_witness :
    (∃ msg, calculate { operation := "divide", a := some 5, b := some 2 }
        = .ok ⟨.rat (5 / 2), msg⟩)
      ∧ calculate { operation := "sqrt", value := some (-3) }
          = .error ⟨400, "Cannot calculate square root of negative number"⟩
      ∧ calculate { operation := "modulo", a := some 5, b := some 2 }
          = .error ⟨400, "Unknown operation: " ++ pyLower "modulo"⟩ :=
  ⟨(calculate_status_codes 5 2 0 0 { operation := "add" }).2.1 (by decide),
    (calculate_status_codes 5 2 (-3) 0 { operation := "add" }).2.2.1 (by decide),
    (calculate_status_codes 5 2 0 0
      { operation := "modulo", a := some 5, b := some 2 }).2.2.2.2.2.1 (by decide)⟩

end LlamaStackDemos
